import Mathlib

/-!
Verification of the lake-extent analysis pipeline
(`src/data/mndwi.py`, `src/analysis/extent.py`, `src/prediction/prediction.py`).

The Python code is shallowly embedded as executable Lean definitions:

* Filenames and log/error messages are lists of characters; the Python string
  predicates used by `_stack_features` (`str.lower`, `str.endswith`,
  `in`-containment, `os.path.splitext`) are reimplemented on `List Char`.
* Polygon geometry is modelled in one dimension: a (multi)polygon is a finite
  union of closed intervals on a line, with dissolve = interval union,
  `buffer(d)` = Minkowski dilation (d positive) or erosion (d negative), and
  area = total length.  This carries exactly the geometric structure that the
  geometry-cleanup claims exercise (which frame is dissolved, which buffer
  distances are applied, in which CRS an area is taken); two-dimensional
  boundary tracing across rows is not modelled and no claim below depends
  on it.
* Machine floats are modelled by exact integers (`ℤ`); an undefined value
  (numpy NaN) is modelled by `Option.none`.  Final square-kilometre figures,
  which the code derives by dividing by 1e6, live in `ℚ`.
* A coordinate reference system is modelled by a linear unit (metres per
  coordinate unit) together with its geographic/projected kind; reprojection
  between two CRSs rescales coordinates accordingly.
* Fallible code returns `Except`: a raised Python exception is `.error` with
  the message.
-/

namespace LakePipeline

/-- Decidable equality for `Except` results, used to evaluate embedded
functions on concrete inputs. -/
def exceptEqDec {ε α : Type} [DecidableEq ε] [DecidableEq α] :
    (x y : Except ε α) → Decidable (x = y)
  | .error a, .error b =>
      if h : a = b then .isTrue (by rw [h])
      else .isFalse (by intro hc; cases hc; exact h rfl)
  | .error _, .ok _ => .isFalse (by intro hc; cases hc)
  | .ok _, .error _ => .isFalse (by intro hc; cases hc)
  | .ok a, .ok b =>
      if h : a = b then .isTrue (by rw [h])
      else .isFalse (by intro hc; cases hc; exact h rfl)

instance {ε α : Type} [DecidableEq ε] [DecidableEq α] : DecidableEq (Except ε α) :=
  exceptEqDec

/-! ## String primitives (Python `str` operations on `List Char`) -/

/-- Python `str.lower` on one ASCII character. -/
def lowerChar (c : Char) : Char :=
  if 'A' ≤ c ∧ c ≤ 'Z' then Char.ofNat (c.toNat + 32) else c

/-- Python `str.lower` over a filename. -/
def strLower (s : List Char) : List Char := s.map lowerChar

/-- Python `s.endswith(suf)`. -/
def strEndsWith (s suf : List Char) : Bool := List.isSuffixOf suf s

/-- Python containment test `pat in s` (substring search). -/
def strContains (pat : List Char) : List Char → Bool
  | [] => pat.isEmpty
  | c :: rest => List.isPrefixOf pat (c :: rest) || strContains pat rest

/-- Root component of `os.path.splitext`: everything before the last dot,
except that a name whose characters before the last dot are all dots (such as
`.bashrc`) is returned whole. -/
def splitextRoot (s : List Char) : List Char :=
  let rest := s.reverse.dropWhile (fun c => c ≠ '.')
  if rest.isEmpty then s
  else if rest.tail.all (fun c => c = '.') then s else rest.tail.reverse

/-! ## `Predictor._stack_features` (src/prediction/prediction.py lines 120-165)

The feature directory is modelled by the list of filenames it contains; the
`os.listdir` snapshot that drives the loop is a separate argument, because the
loop itself grows the directory (it writes `*_aligned.tif` rasters) while the
snapshot stays fixed.  Raster pixel data is not modelled here: every claim
about `_stack_features` concerns the order of feature names, the files the
call writes, and its error behaviour. -/

/-- Digit character of `n < 10`. -/
def digitChar (n : ℕ) : Char := Char.ofNat (48 + n)

/-- The four characters of `str(y)` for a four-digit year `y`. -/
def yearChars (y : ℕ) : List Char :=
  [digitChar (y / 1000 % 10), digitChar (y / 100 % 10),
   digitChar (y / 10 % 10), digitChar (y % 10)]

/-- Test `any(str(y) in basename for y in range(1900, 2100))` distinguishing
static (DEM) features from year-specific ones. -/
def hasYearToken (basename : List Char) : Bool :=
  (List.range' 1900 200).any (fun y => strContains (yearChars y) basename)

/-- Test `file.lower().endswith('.tif')`. -/
def isTifFile (file : List Char) : Bool := strEndsWith (strLower file) ".tif".toList

/-- Suffix test `basename.endswith('_aligned')`. -/
def isAlignedBase (basename : List Char) : Bool :=
  strEndsWith basename "_aligned".toList

/-- Destination filename `f"{basename}_aligned.tif"` of `_coregister_raster`. -/
def alignedName (basename : List Char) : List Char :=
  basename ++ "_aligned.tif".toList

/-- The condition under which the loop of `_stack_features` appends a feature:
the basename ends in `_aligned` and is either static (no year token, the DEM
branch) or carries the requested year (the time-based branch). -/
def featureQualifies (year : ℕ) (basename : List Char) : Bool :=
  isAlignedBase basename &&
    (if !(hasYearToken basename) then true else strContains (yearChars year) basename)

/-- Directory contents after the alignment phase of one loop iteration of
`_stack_features`: a basename not ending in `_aligned` gets its coregistered
destination written unless it already exists (lines 137-142). -/
def stepFs (fs : List (List Char)) (basename : List Char) : List (List Char) :=
  if !(isAlignedBase basename) then
    if alignedName basename ∈ fs then fs else fs ++ [alignedName basename]
  else fs

/-- The `for file in os.listdir(...)` loop of `_stack_features`: walks the
fixed `listing` snapshot, threading the directory contents `fs` through
`stepFs`, and collects the basenames of qualifying aligned `.tif` features in
listing order.  Returns the directory contents after the call together with
the stacked feature names. -/
def stackLoop (year : ℕ) : List (List Char) → List (List Char) →
    List (List Char) × List (List Char)
  | [], fs => (fs, [])
  | file :: rest, fs =>
      if isTifFile file then
        let out := stackLoop year rest (stepFs fs (splitextRoot file))
        if featureQualifies year (splitextRoot file) then
          (out.1, splitextRoot file :: out.2)
        else out
      else
        stackLoop year rest fs

/-- The error message of `raise ValueError(f'No features found for year ...')`. -/
def noFeaturesMsg : List Char := "No features found for year".toList

/-- Result of one `_stack_features` invocation: the features directory after
the call, and either the stacked feature names or the raised error. -/
structure StackOutcome where
  fsAfter : List (List Char)
  stacked : Except (List Char) (List (List Char))
deriving DecidableEq

/-- `_stack_features(year)` run against a directory snapshot `listing` and
directory contents `fs` (lines 120-165): runs the loop, then raises
`ValueError` when no feature qualified. -/
def stackFeatures (year : ℕ) (listing fs : List (List Char)) : StackOutcome :=
  let out := stackLoop year listing fs
  if out.2.isEmpty then ⟨out.1, .error noFeaturesMsg⟩
  else ⟨out.1, .ok out.2⟩

/-! Helper lemmas about the feature-stack loop. -/

/-- The stacked names depend only on the listing snapshot and the year, not on
the directory contents being threaded: they are the qualifying `.tif`
basenames in listing order. -/
theorem stackLoop_names (year : ℕ) (listing : List (List Char)) :
    ∀ fs, (stackLoop year listing fs).2 =
      (listing.filter
        (fun f => isTifFile f && featureQualifies year (splitextRoot f))).map
        splitextRoot := by
  induction listing with
  | nil => intro fs; simp [stackLoop]
  | cons file rest ih =>
      intro fs
      cases htif : isTifFile file with
      | false => simp [stackLoop, htif, ih]
      | true =>
          cases hq : featureQualifies year (splitextRoot file) with
          | false => simp [stackLoop, htif, hq, ih]
          | true => simp [stackLoop, htif, hq, ih]

/-- The directory part of the loop result ignores whether features qualified. -/
theorem stackLoop_cons_fst (year : ℕ) (file : List Char) (rest fs : List (List Char)) :
    (stackLoop year (file :: rest) fs).1 =
      if isTifFile file then (stackLoop year rest (stepFs fs (splitextRoot file))).1
      else (stackLoop year rest fs).1 := by
  cases htif : isTifFile file with
  | false => simp [stackLoop, htif]
  | true =>
      cases hq : featureQualifies year (splitextRoot file) with
      | false => simp [stackLoop, htif, hq]
      | true => simp [stackLoop, htif, hq]

/-- The directory only grows during the loop. -/
theorem stackLoop_fs_mono (year : ℕ) (listing : List (List Char)) :
    ∀ fs, fs ⊆ (stackLoop year listing fs).1 := by
  induction listing with
  | nil => intro fs; simp [stackLoop]
  | cons file rest ih =>
      intro fs
      rw [stackLoop_cons_fst]
      cases htif : isTifFile file with
      | false => simpa using ih fs
      | true =>
          simp only [if_true]
          refine List.Subset.trans ?_ (ih (stepFs fs (splitextRoot file)))
          intro x hx
          unfold stepFs
          by_cases h1 : isAlignedBase (splitextRoot file) <;>
            by_cases h2 : alignedName (splitextRoot file) ∈ fs <;>
            simp only [h1, h2, Bool.not_true, Bool.not_false, ite_true,
              ite_false, if_true, if_false, List.mem_append,
              Bool.false_eq_true, Bool.true_eq_false] <;>
            first
              | exact hx
              | exact Or.inl hx

/-- Every non-aligned `.tif` entry of the listing has its aligned destination
present in the directory after the loop. -/
theorem stackLoop_writes_aligned (year : ℕ) (listing : List (List Char)) :
    ∀ fs, ∀ f ∈ listing, isTifFile f = true →
      isAlignedBase (splitextRoot f) = false →
      alignedName (splitextRoot f) ∈ (stackLoop year listing fs).1 := by
  induction listing with
  | nil => intro fs f hf; cases hf
  | cons file rest ih =>
      intro fs f hf htif hnal
      rw [stackLoop_cons_fst]
      rcases List.mem_cons.mp hf with hf | hf
      · subst hf
        simp only [htif, if_true]
        refine stackLoop_fs_mono year rest _ ?_
        unfold stepFs
        rw [hnal]
        by_cases h2 : alignedName (splitextRoot f) ∈ fs <;> simp [h2]
      · cases htif2 : isTifFile file with
        | false => simpa using ih fs f hf htif hnal
        | true => simpa using ih (stepFs fs (splitextRoot file)) f hf htif hnal

/-- A coregistered output name is itself a `.tif` file. -/
theorem isTifFile_alignedName (b : List Char) : isTifFile (alignedName b) = true := by
  unfold isTifFile alignedName strEndsWith strLower
  rw [List.map_append]
  have h1 : ("_aligned.tif".toList).map lowerChar = "_aligned.tif".toList := by decide
  rw [h1, List.isSuffixOf_iff_suffix]
  exact List.IsSuffix.trans ⟨"_aligned".toList, by decide⟩ (List.suffix_append _ _)

/-- The stacked component of `_stack_features` as a function of the listing
snapshot alone. -/
theorem stackFeatures_stacked (year : ℕ) (listing fs : List (List Char)) :
    (stackFeatures year listing fs).stacked =
      if ((listing.filter (fun f => isTifFile f &&
            featureQualifies year (splitextRoot f))).map splitextRoot).isEmpty
      then .error noFeaturesMsg
      else .ok ((listing.filter (fun f => isTifFile f &&
            featureQualifies year (splitextRoot f))).map splitextRoot) := by
  have h := stackLoop_names year listing fs
  simp only [stackFeatures, h, apply_ite StackOutcome.stacked]

/-- The directory contents reported by `_stack_features` are the loop's. -/
theorem stackFeatures_fsAfter (year : ℕ) (listing fs : List (List Char)) :
    (stackFeatures year listing fs).fsAfter = (stackLoop year listing fs).1 := by
  unfold stackFeatures
  by_cases h : (stackLoop year listing fs).2.isEmpty <;> simp [h]

/-! ## Claim C3 -/

/-- Two `os.listdir` orders of the same feature-directory contents. -/
def listingAB : List (List Char) := ["a_aligned.tif".toList, "b_aligned.tif".toList]

/-- The same directory contents listed in the opposite order. -/
def listingBA : List (List Char) := ["b_aligned.tif".toList, "a_aligned.tif".toList]

/-- C3 counterexample: the feature directory holding exactly `a_aligned.tif`
and `b_aligned.tif` yields different stack column orders under two
`os.listdir` orders of the same contents, because `_stack_features` applies no
sort to the listing.  This refutes the claim that the column order is
identical across invocations for fixed directory contents. -/
theorem stack_order_not_determined_by_contents :
    listingAB.Perm listingBA ∧
    (stackFeatures 2030 listingAB listingAB).stacked ≠
      (stackFeatures 2030 listingBA listingBA).stacked := by
  refine ⟨List.Perm.swap _ _ _, ?_⟩
  decide

/-- C3 (amended): the stack's column order is a deterministic function of the
`os.listdir` sequence — it is exactly the qualifying aligned `.tif` basenames
in listing order, independent of the cache/directory state being threaded —
but no sort is applied, so two invocations are guaranteed the same order only
when the operating system returns the same listing sequence, not for every
relisting of the same contents. -/
theorem stack_order_determined_by_listing (year : ℕ) (listing fs fs2 : List (List Char)) :
    (stackFeatures year listing fs).stacked = (stackFeatures year listing fs2).stacked ∧
    (stackLoop year listing fs).2 =
      (listing.filter (fun f => isTifFile f &&
        featureQualifies year (splitextRoot f))).map splitextRoot :=
  ⟨by rw [stackFeatures_stacked, stackFeatures_stacked], stackLoop_names year listing fs⟩

/-! ## Claim C10 -/

/-- C10: on a features directory whose `.tif` rasters are all unaligned, a
single `_stack_features` invocation writes the `_aligned.tif` companion of
every raster and still raises the no-features `ValueError` in that same
invocation, because the `os.listdir` snapshot was taken before the aligned
files were created; an aligned companion enters the stack only on a
subsequent invocation whose listing contains it. -/
theorem stack_first_run_aligns_then_raises (year : ℕ) (listing : List (List Char))
    (hne : listing ≠ [])
    (hall : ∀ f ∈ listing, isTifFile f = true ∧ isAlignedBase (splitextRoot f) = false) :
    (stackFeatures year listing listing).stacked = .error noFeaturesMsg ∧
    (∀ f ∈ listing,
      alignedName (splitextRoot f) ∈ (stackFeatures year listing listing).fsAfter) ∧
    (∀ f ∈ listing, ∀ listing2 fs2 : List (List Char),
      alignedName (splitextRoot f) ∈ listing2 →
      featureQualifies year (splitextRoot (alignedName (splitextRoot f))) = true →
      ∃ names, (stackFeatures year listing2 fs2).stacked = .ok names ∧
        splitextRoot (alignedName (splitextRoot f)) ∈ names) := by
  refine ⟨?_, ?_, ?_⟩
  · rw [stackFeatures_stacked]
    have hfil : listing.filter
        (fun f => isTifFile f && featureQualifies year (splitextRoot f)) = [] := by
      refine List.filter_eq_nil_iff.mpr ?_
      intro f hf
      have h2 := (hall f hf).2
      simp [featureQualifies, h2]
    simp [hfil]
  · intro f hf
    rw [stackFeatures_fsAfter]
    exact stackLoop_writes_aligned year listing listing f hf (hall f hf).1 (hall f hf).2
  · intro f hf listing2 fs2 hmem hq
    refine ⟨(listing2.filter (fun g => isTifFile g &&
      featureQualifies year (splitextRoot g))).map splitextRoot, ?_, ?_⟩
    · rw [stackFeatures_stacked]
      have hmemf : alignedName (splitextRoot f) ∈ listing2.filter
          (fun g => isTifFile g && featureQualifies year (splitextRoot g)) := by
        rw [List.mem_filter]
        exact ⟨hmem, by rw [isTifFile_alignedName, hq]; rfl⟩
      have hnonempty : ((listing2.filter (fun g => isTifFile g &&
          featureQualifies year (splitextRoot g))).map splitextRoot) ≠ [] := by
        intro hcontra
        rw [List.map_eq_nil_iff] at hcontra
        rw [hcontra] at hmemf
        cases hmemf
      simp [List.isEmpty_iff, hnonempty]
    · exact List.mem_map.mpr ⟨alignedName (splitextRoot f), by
        rw [List.mem_filter]
        exact ⟨hmem, by rw [isTifFile_alignedName, hq]; rfl⟩, rfl⟩

/-- Witness for C10 on a concrete directory holding only `dem.tif`. -/
theorem stack_first_run_aligns_then_raises_witness :
    (["dem.tif".toList] ≠ ([] : List (List Char))) ∧
    (∀ f ∈ ["dem.tif".toList], isTifFile f = true ∧
      isAlignedBase (splitextRoot f) = false) ∧
    ((stackFeatures 2030 ["dem.tif".toList] ["dem.tif".toList]).stacked =
        .error noFeaturesMsg ∧
      (∀ f ∈ ["dem.tif".toList], alignedName (splitextRoot f) ∈
        (stackFeatures 2030 ["dem.tif".toList] ["dem.tif".toList]).fsAfter) ∧
      (∀ f ∈ ["dem.tif".toList], ∀ listing2 fs2 : List (List Char),
        alignedName (splitextRoot f) ∈ listing2 →
        featureQualifies 2030 (splitextRoot (alignedName (splitextRoot f))) = true →
        ∃ names, (stackFeatures 2030 listing2 fs2).stacked = .ok names ∧
          splitextRoot (alignedName (splitextRoot f)) ∈ names)) :=
  ⟨by decide, by decide,
    stack_first_run_aligns_then_raises 2030 ["dem.tif".toList] (by decide) (by decide)⟩

/-! ## One-dimensional geometry model

A (multi)polygon is a finite union of closed intervals on a line.  Dissolve
and `unary_union` are interval union, `buffer(d)` is Minkowski dilation for
`d ≥ 0` and erosion for `d < 0`, and shapely's planar `area` is total length,
all in the coordinate units of the geometry's current CRS. -/

/-- A closed interval `[lo, hi]`, one polygon of the model. -/
abbrev Iv := ℤ × ℤ

/-- Length of one interval: the model of shapely polygon area. -/
def ivLen (i : Iv) : ℤ := i.2 - i.1

/-- Insert an interval into a list sorted by left endpoint. -/
def insertIv (i : Iv) : List Iv → List Iv
  | [] => [i]
  | j :: rest => if i.1 ≤ j.1 then i :: j :: rest else j :: insertIv i rest

/-- Insertion sort by left endpoint. -/
def sortIvs : List Iv → List Iv
  | [] => []
  | i :: rest => insertIv i (sortIvs rest)

/-- Merge a left-sorted list of intervals, fusing overlapping or touching
neighbours. -/
def mergeFrom (cur : Iv) : List Iv → List Iv
  | [] => [cur]
  | j :: rest =>
      if j.1 ≤ cur.2 then mergeFrom (cur.1, max cur.2 j.2) rest
      else cur :: mergeFrom j rest

/-- Normal form of a union of intervals: drop empty parts, sort, merge.  This
is the model of dissolving a polygon set into one (multi)geometry. -/
def normIvs (g : List Iv) : List Iv :=
  match sortIvs (g.filter (fun i => i.1 < i.2)) with
  | [] => []
  | i :: rest => mergeFrom i rest

/-- Shapely `buffer(d)` on a union of intervals: dilation by `d ≥ 0` expands
every part and fuses what touches; erosion by `d < 0` shrinks every merged
component and drops those that vanish. -/
def bufferGeom (g : List Iv) (d : ℤ) : List Iv :=
  if 0 ≤ d then normIvs (g.map (fun i => (i.1 - d, i.2 + d)))
  else ((normIvs g).map (fun i => (i.1 - d, i.2 + d))).filter (fun i => i.1 < i.2)

/-- Total area (length) of a geometry. -/
def geomArea (g : List Iv) : ℤ := ((normIvs g).map ivLen).sum

/-- A coordinate reference system in the model: its linear unit in metres and
whether it is geographic.  `geopandas` reads the kind from `crs.is_geographic`
and reprojection rescales coordinates by the unit. -/
structure CRSModel where
  scale : ℤ
  isGeographic : Bool
deriving DecidableEq

/-- The projected metric CRS the code reprojects to (`epsg=32636`, UTM 36N). -/
def epsg32636 : CRSModel := ⟨1, false⟩

/-- A geographic CRS (`EPSG:4326`); one degree is modelled as 111320 m. -/
def epsg4326 : CRSModel := ⟨111320, true⟩

/-- `to_crs(epsg=32636)` applied to a geometry currently in `crs`: coordinates
are rescaled into metres. -/
def toProjected (crs : CRSModel) (g : List Iv) : List Iv :=
  g.map (fun i => (i.1 * crs.scale, i.2 * crs.scale))

/-! ## `create_mask` (src/data/mndwi.py lines 97-167, src/analysis/extent.py
lines 24-94)

The raster read with `src.read(1, masked=True)` is a numpy masked array: raw
stored data plus a nodata mask.  Values are modelled as exact integers and
the threshold is the function's parameter (`self.threshold`, 0.1 in the
configuration).  Vectorization traces each row's maximal runs of ones into
intervals on the row's west-east axis; the two source files differ only in
their minimum-area constant (1000 m² in mndwi.py, 500 m² in extent.py), which
is the `minArea` parameter here. -/

/-- A raster as read by rasterio with `masked=True`: raw stored values (the
nodata fill value remains in `data` at masked cells), the nodata mask, a
north-up transform restricted to pixel size and west origin, and a CRS. -/
structure RasterModel where
  data : List (List ℤ)
  nodataMask : List (List Bool)
  pixelSize : ℤ
  originX : ℤ
  crs : CRSModel
deriving DecidableEq

/-- Numpy shape of a 2-D array (rows, columns of the first row). -/
def gridShape (g : List (List α)) : ℕ × ℕ := (g.length, (g.headD []).length)

/-- The masked comparison `arr > self.threshold` (line 111): the comparison is
taken on the raw stored data, and the nodata mask is carried unchanged
alongside it. -/
def maskedGt (r : RasterModel) (threshold : ℤ) : List (List Bool) × List (List Bool) :=
  (r.data.map (fun row => row.map (fun v => threshold < v)), r.nodataMask)

/-- The conversion `np.where(mask, 1, 0)` (line 126): `np.where` reads the
masked array through its base ndarray, so only the raw comparison data is
used and the nodata mask is silently dropped. -/
def npWhere10 (cond : List (List Bool)) : List (List ℤ) :=
  cond.map (fun row => row.map (fun b => if b then (1 : ℤ) else 0))

/-- The guard of lines 129-130: `if mask_arr.shape != arr.shape: raise
ValueError(f"Shape mismatch: ...")`. -/
def shapeGuard (maskShape arrShape : ℕ × ℕ) : Except (List Char) Unit :=
  if maskShape ≠ arrShape then .error "Shape mismatch".toList else .ok ()

/-- The interval covered on the ground by pixel column `c`. -/
def pixelIv (px ox : ℤ) (c : ℕ) : Iv := (ox + px * c, ox + px * (c + 1))

/-- `rasterio.features.shapes` on one row of the vectorization mask: the
maximal runs of ones, as merged pixel intervals. -/
def vectorizeRow (px ox : ℤ) (row : List ℤ) : List Iv :=
  normIvs ((row.enum.filterMap
    (fun p => if p.2 = 1 then some (pixelIv px ox p.1) else none)))

/-- Vectorization of the whole mask, row by row.  Cross-row merging of
connected regions (the `connectivity` argument) is not modelled; no claim
below depends on it. -/
def vectorizeMask (px ox : ℤ) (maskArr : List (List ℤ)) : List Iv :=
  (maskArr.map (vectorizeRow px ox)).flatten

/-- Every intermediate value of the geometry-cleanup pipeline of
`create_mask` (lines 140-167), recorded so each step can be inspected. -/
structure MaskTrace where
  maskArr : List (List ℤ)
  polygons : List Iv
  step5Parts : List Iv
  areaM2Crs : CRSModel
  step6Input : List Iv
  afterBuffers : List Iv
  areaKm2 : ℚ
  areaKm2Crs : CRSModel
  wroteDissolved : Bool
  warnedNoPolygons : Bool

/-- `create_mask(mndwi_path)`: threshold the masked array, build the
vectorization mask via `np.where`, check shapes, trace polygons, and run the
numbered geometry-cleanup steps of lines 140-164:
step 1 dissolve; step 2 reproject to a metric CRS when the working CRS is
geographic; step 3 per-part area and minimum-area filter; step 4 zero buffer
repair (an interval is always valid, so a no-op here); step 5 `simplify(5)`
(no stair-step vertices exist in one dimension, a no-op here); step 6
re-dissolve of the frame `gdf` followed by `buffer(60).unary_union` and
`buffer(-30)` with the frame CRS taken from `gdf.crs`; step 7 `area_km2 =
geometry.area / 1e6` in that frame's CRS.  Without any polygon the function
logs the no-water warning and writes nothing. -/
def createMask (r : RasterModel) (threshold : ℤ) (minArea : ℤ) :
    Except (List Char) MaskTrace :=
  let cond := (maskedGt r threshold).1
  let maskArr := npWhere10 cond
  match shapeGuard (gridShape maskArr) (gridShape r.data) with
  | .error e => .error e
  | .ok _ =>
    let polygons := vectorizeMask r.pixelSize r.originX maskArr
    if polygons ≠ [] then
      let parts := normIvs polygons
      let partsProj := if r.crs.isGeographic then toProjected r.crs parts else parts
      let crsProj := if r.crs.isGeographic then epsg32636 else r.crs
      let partsBig := partsProj.filter (fun i => minArea ≤ ivLen i)
      let partsClean := partsBig
      let step6 := normIvs polygons
      let buffered := bufferGeom step6 60
      let closed := bufferGeom buffered (-30)
      .ok { maskArr := maskArr
            polygons := polygons
            step5Parts := partsClean
            areaM2Crs := crsProj
            step6Input := step6
            afterBuffers := closed
            areaKm2 := ((geomArea closed : ℤ) : ℚ) / 1000000
            areaKm2Crs := r.crs
            wroteDissolved := true
            warnedNoPolygons := false }
    else
      .ok { maskArr := maskArr
            polygons := []
            step5Parts := []
            areaM2Crs := r.crs
            step6Input := []
            afterBuffers := []
            areaKm2 := 0
            areaKm2Crs := r.crs
            wroteDissolved := false
            warnedNoPolygons := true }

/-- The vectorization mask always has the raster's shape: `np.where` maps the
comparison array elementwise. -/
theorem maskArr_shape (r : RasterModel) (t : ℤ) :
    gridShape (npWhere10 (maskedGt r t).1) = gridShape r.data := by
  unfold npWhere10 maskedGt gridShape
  cases h : r.data with
  | nil => simp
  | cons row rest => simp

/-- A run of the enumeration over an all-zero row yields no pixel interval. -/
theorem filterMap_enumFrom_zero (px ox : ℤ) (n : ℕ) (row : List ℤ)
    (h : ∀ v ∈ row, v = 0) :
    (List.enumFrom n row).filterMap
      (fun p => if p.2 = 1 then some (pixelIv px ox p.1) else none) = [] := by
  induction row generalizing n with
  | nil => rfl
  | cons v rest ih =>
      have hv : v = 0 := h v (by simp)
      subst hv
      have hstep : (List.enumFrom n ((0 : ℤ) :: rest)).filterMap
          (fun p => if p.2 = 1 then some (pixelIv px ox p.1) else none) =
        (List.enumFrom (n + 1) rest).filterMap
          (fun p => if p.2 = 1 then some (pixelIv px ox p.1) else none) := rfl
      rw [hstep]
      exact ih (n + 1) (fun w hw => h w (List.mem_cons_of_mem _ hw))

/-- An all-zero row vectorizes to no polygon. -/
theorem vectorizeRow_zero (px ox : ℤ) (row : List ℤ) (h : ∀ v ∈ row, v = 0) :
    vectorizeRow px ox row = [] := by
  unfold vectorizeRow
  rw [show row.enum = List.enumFrom 0 row from rfl,
    filterMap_enumFrom_zero px ox 0 row h]
  rfl

/-- When no stored value exceeds the threshold, the vectorization produces no
polygon at all. -/
theorem vectorizeMask_below (r : RasterModel) (t : ℤ)
    (h : ∀ row ∈ r.data, ∀ v ∈ row, v ≤ t) :
    vectorizeMask r.pixelSize r.originX (npWhere10 (maskedGt r t).1) = [] := by
  unfold vectorizeMask npWhere10 maskedGt
  simp only [List.map_map]
  rw [List.flatten_eq_nil_iff]
  intro l hl
  rcases List.mem_map.mp hl with ⟨row, hrow, rfl⟩
  simp only [Function.comp]
  apply vectorizeRow_zero
  intro v hv
  rcases List.mem_map.mp hv with ⟨b, hb, rfl⟩
  rcases List.mem_map.mp hb with ⟨x, hx, rfl⟩
  have hle : ¬ (t < x) := not_lt.mpr (h row hrow x hx)
  simp [hle]

/-! ## Claim C4 -/

/-- The C4 failing input: a raster whose only pixel is nodata-masked while its
stored fill value 10 exceeds the threshold. -/
def rasterNodata : RasterModel := ⟨[[10]], [[true]], 1, 0, ⟨1, false⟩⟩

/-- C4 (code bug): `np.where(mask, 1, 0)` reads the masked comparison through
its base ndarray and silently drops the nodata mask, so the nodata pixel of
`rasterNodata` — stored value 10, threshold 0 — receives 1 in the
vectorization mask, although the claim requires every nodata pixel to be 0
there for every threshold and array. -/
theorem nodata_pixel_enters_mask :
    rasterNodata.nodataMask = [[true]] ∧
    (createMask rasterNodata 0 1000).map (fun tr => tr.maskArr) = .ok [[1]] :=
  ⟨rfl, by decide⟩

/-! ## Claim C2 -/

/-- The C2 failing input: one row with a 20-pixel water run and a separate
single-pixel run, 100 m pixels, projected CRS, minimum area 1000 m². -/
def rasterTwoRuns : RasterModel :=
  ⟨[List.replicate 20 (1 : ℤ) ++ [0, 1]], [List.replicate 22 false], 100, 0, ⟨1, false⟩⟩

/-- C2 (code bug): on `rasterTwoRuns` the steps 3-5 of `create_mask` keep only
the 2000 m interval (the 100 m fragment falls below the minimum area), so the
re-dissolve of the steps 3-5 parts would be `[(0,2000)]`; but line 160
dissolves the raw frame `gdf` instead, feeding both raw runs into step 6, and
the `buffer(60)`/`buffer(-30)` pair is not equal-and-opposite: it fuses the
runs and grows the geometry from 2100 m² to 2260 m², a net size change. -/
theorem step6_rebuffers_raw_polygons :
    (createMask rasterTwoRuns 0 1000).map
        (fun tr => (tr.step6Input, normIvs tr.step5Parts,
          geomArea tr.afterBuffers, geomArea tr.step6Input)) =
      .ok ([(0, 2000), (2100, 2200)], [(0, 2000)], 2260, 2100) := by decide

/-! ## Claim C5 -/

/-- The C5 failing input: a single-pixel water raster whose working CRS is
geographic. -/
def rasterGeographic : RasterModel := ⟨[[1]], [[false]], 1, 0, epsg4326⟩

/-- C5 (code bug): the per-part `area_m2` of `create_mask` is computed after
the reproject-if-geographic step and so in a projected CRS, but the final
`area_km2` is computed on the step-6 frame, which is rebuilt from the raw
`gdf` with `crs=gdf.crs` — the raster's geographic CRS — so for a geographic
input the persisted area is taken in degrees, violating the invariant. -/
theorem area_km2_in_geographic_crs :
    (createMask rasterGeographic 0 1000).map
        (fun tr => (tr.areaM2Crs.isGeographic, tr.areaKm2Crs.isGeographic)) =
      .ok (false, true) := by decide

/-! ## Claim C7 -/

/-- A raster with no pixel above the threshold. -/
def rasterDry : RasterModel := ⟨[[0, 0]], [[false, false]], 100, 0, ⟨1, false⟩⟩

/-- C7 counterexample: with no pixel above the threshold, `create_mask` takes
the `else` branch — it logs the no-water warning and returns, writing no
dissolved lake-extent output at all, so no empty extent result exists for
downstream steps (which read `results/lake_{year}.shp`) to consume. -/
theorem no_water_writes_no_extent :
    (createMask rasterDry 0 1000).map
        (fun tr => (tr.warnedNoPolygons, tr.wroteDissolved)) =
      .ok (true, false) := by decide

/-- C7 (amended): when no pixel exceeds the threshold, `create_mask` does not
raise — it surfaces the `No water polygons found above threshold!` warning —
but it produces no lake-extent result, empty or otherwise: the vector outputs
are simply not written. -/
theorem create_mask_no_water (r : RasterModel) (t minArea : ℤ)
    (h : ∀ row ∈ r.data, ∀ v ∈ row, v ≤ t) :
    ∃ tr, createMask r t minArea = .ok tr ∧ tr.warnedNoPolygons = true ∧
      tr.wroteDissolved = false := by
  have hguard : shapeGuard (gridShape (npWhere10 (maskedGt r t).1))
      (gridShape r.data) = .ok () := by
    simp [shapeGuard, maskArr_shape]
  have hpoly := vectorizeMask_below r t h
  simp only [createMask]
  rw [hguard, hpoly]
  exact ⟨_, rfl, rfl, rfl⟩

/-- The concrete no-water raster of the C7 witness. -/
def rasterSmallDry : RasterModel := ⟨[[0]], [[false]], 1, 0, ⟨1, false⟩⟩

/-- Witness for the amended C7 on `rasterSmallDry` with threshold 0. -/
theorem create_mask_no_water_witness :
    (∀ row ∈ rasterSmallDry.data, ∀ v ∈ row, v ≤ 0) ∧
    ∃ tr, createMask rasterSmallDry 0 1000 = .ok tr ∧
      tr.warnedNoPolygons = true ∧ tr.wroteDissolved = false :=
  ⟨by decide, create_mask_no_water rasterSmallDry 0 1000 (by decide)⟩

/-! ## `Predictor.train` (lines 169-212) and `Predictor.predict` (lines
214-236)

A pixel's feature vector is a list of optional integers, `none` modelling a
NaN feature value.  The flattened design matrix `f_2d` is a list of such
rows; the flattened label raster is a list of integers. -/

/-- One pixel's feature vector; `none` models an undefined (NaN) value. -/
abbrev FeatRow := List (Option ℤ)

/-- Numpy boolean-mask indexing `a[mask]`: keeps the entries at true
positions, but numpy raises `IndexError` when the boolean mask's length
differs from the indexed axis length. -/
def boolIndex (xs : List α) (m : List Bool) : Except (List Char) (List α) :=
  if xs.length = m.length then
    .ok (((xs.zip m).filter (fun p => p.2)).map (fun p => p.1))
  else .error "IndexError: boolean index did not match indexed array".toList

/-- The per-year body of the training loop (lines 187-197): build
`valid_mask = ~np.any(np.isnan(f_2d), axis=1)`, index the feature rows and
the flattened labels with it, then run the explicit mismatch check whose
`continue` (modelled as `.ok none`) would skip the year.  The check is
reachable only when both indexings succeeded, which forces the lengths to
agree, so the `continue` never fires: a mismatched label length already
raises `IndexError` at `l_1d[valid_mask]`. -/
def trainYear (f2d : List FeatRow) (labels : List ℤ) :
    Except (List Char) (Option (List FeatRow × List ℤ)) :=
  let validMask := f2d.map (fun row => !(row.any (fun v => v.isNone)))
  match boolIndex f2d validMask with
  | .error e => .error e
  | .ok xr =>
    match boolIndex labels validMask with
    | .error e => .error e
    | .ok yr =>
      if labels.length ≠ f2d.length then .ok none
      else .ok (some (xr, yr))

/-- The training loop over the requested years (lines 176-200): a year whose
label raster is absent (`labels = none`) is skipped with a warning; a raised
exception aborts the whole call; surviving rows are concatenated in year
order (`np.vstack`/`np.hstack`). -/
def trainLoop : List (List FeatRow × Option (List ℤ)) →
    Except (List Char) (List FeatRow × List ℤ)
  | [] => .ok ([], [])
  | (_, none) :: rest => trainLoop rest
  | (f2d, some labels) :: rest =>
    match trainYear f2d labels with
    | .error e => .error e
    | .ok none => trainLoop rest
    | .ok (some (xr, yr)) =>
      match trainLoop rest with
      | .error e => .error e
      | .ok out => .ok (xr ++ out.1, yr ++ out.2)

/-! ## Claim C6 -/

/-- C6: shape/grid mismatches are fatal and raised immediately.  The
`create_mask` shape guard (lines 129-130 of mndwi.py) passes exactly when the
vectorization-mask shape equals the raster shape and raises `ValueError`
otherwise; and a training year whose flattened label count differs from its
feature row count makes `train` raise at once — numpy's boolean indexing
rejects the mismatched mask at `l_1d[valid_mask]`, before the code's
`continue` could skip the year — aborting the loop regardless of the
remaining years. -/
theorem shape_mismatch_is_fatal :
    (∀ ms as : ℕ × ℕ, shapeGuard ms as = .ok () ↔ ms = as) ∧
    (∀ (f2d : List FeatRow) (labels : List ℤ)
        (rest : List (List FeatRow × Option (List ℤ))),
      labels.length ≠ f2d.length →
      trainLoop ((f2d, some labels) :: rest) =
        .error "IndexError: boolean index did not match indexed array".toList) := by
  constructor
  · intro ms as
    unfold shapeGuard
    by_cases h : ms = as <;> simp [h]
  · intro f2d labels rest hne2
    simp [trainLoop, trainYear, boolIndex, List.length_map, hne2]

/-- Witness for C6: a concrete mismatched year (two feature rows, one label)
raises, and the guard equivalence instantiated at unequal shapes. -/
theorem shape_mismatch_is_fatal_witness :
    (([(3 : ℤ)].length ≠ ([[some (0 : ℤ)], [some 1]] : List FeatRow).length) ∧
      (shapeGuard (1, 1) (2, 2) = .ok () ↔ ((1 : ℕ), (1 : ℕ)) = (2, 2))) ∧
    trainLoop [([[some (0 : ℤ)], [some 1]], some [(3 : ℤ)])] =
      .error "IndexError: boolean index did not match indexed array".toList :=
  ⟨⟨by decide, shape_mismatch_is_fatal.1 (1, 1) (2, 2)⟩,
    shape_mismatch_is_fatal.2 [[some (0 : ℤ)], [some 1]] [(3 : ℤ)] [] (by decide)⟩

/-! ## Claim C8 -/

/-- The prediction step of `predict` (lines 221-225): `preds` is initialised
to NaN everywhere, and `preds[valid_mask] = self.model.predict(f_2d[valid_mask])`
assigns the classifier's output to the fully defined rows in row order; a row
containing an undefined feature keeps its NaN.  Row-wise this scatter is
exactly the map below, with the trained classifier as a function argument. -/
def predictRows (model : FeatRow → ℤ) (f2d : List FeatRow) : List (Option ℤ) :=
  f2d.map (fun row =>
    if row.any (fun v => v.isNone) then none else some (model row))

/-- The reconstruction `preds.reshape(features.shape[1], features.shape[2])`
of line 227, row-major. -/
def reshape2 (h w : ℕ) (xs : List (Option ℤ)) : List (List (Option ℤ)) :=
  (List.range h).map (fun r => (xs.drop (r * w)).take w)

/-- Index access distributes over `drop`. -/
theorem getElem?_drop_add (l : List α) (n m : ℕ) : (l.drop n)[m]? = l[n + m]? := by
  induction l generalizing n with
  | nil => simp
  | cons a rest ih =>
      cases n with
      | zero => simp
      | succ k =>
          have harith : k + 1 + m = (k + m) + 1 := by omega
          rw [List.drop_succ_cons, ih k, harith, List.getElem?_cons_succ]

/-- Reading a cell of the reshaped raster is reading the flat list. -/
theorem reshape2_getD (h w r c : ℕ) (xs : List (Option ℤ))
    (hr : r < h) (hc : c < w) :
    ((reshape2 h w xs).getD r []).getD c none = xs.getD (r * w + c) none := by
  unfold reshape2
  have h1 : ((List.range h).map (fun i => (xs.drop (i * w)).take w)).getD r [] =
      (xs.drop (r * w)).take w := by
    rw [List.getD_eq_getElem?_getD, List.getElem?_map, List.getElem?_range hr]
    rfl
  rw [h1, List.getD_eq_getElem?_getD, List.getElem?_take_of_lt hc,
    getElem?_drop_add, List.getD_eq_getElem?_getD]

/-- C8: for every year's feature stack, `predict` writes the NaN sentinel at
exactly the pixels whose feature row contains an undefined value, and a pixel
with fully defined features receives the model's prediction for its row — in
the reconstructed 2-D raster, at every in-range position. -/
theorem predict_nan_sentinel (model : FeatRow → ℤ) (f2d : List FeatRow)
    (h w r c : ℕ) (hlen : f2d.length = h * w) (hr : r < h) (hc : c < w) :
    (((reshape2 h w (predictRows model f2d)).getD r []).getD c none = none ↔
      (f2d.getD (r * w + c) []).any (fun v => v.isNone) = true) ∧
    ((f2d.getD (r * w + c) []).any (fun v => v.isNone) = false →
      ((reshape2 h w (predictRows model f2d)).getD r []).getD c none =
        some (model (f2d.getD (r * w + c) []))) := by
  have hidx : r * w + c < f2d.length := by
    rw [hlen]
    calc r * w + c < r * w + w := by omega
      _ = (r + 1) * w := by ring
      _ ≤ h * w := Nat.mul_le_mul_right w hr
  rw [reshape2_getD h w r c _ hr hc]
  have hflat : (predictRows model f2d).getD (r * w + c) none =
      if (f2d.getD (r * w + c) []).any (fun v => v.isNone) then none
      else some (model (f2d.getD (r * w + c) [])) := by
    unfold predictRows
    rw [List.getD_eq_getElem?_getD, List.getElem?_map,
      List.getElem?_eq_getElem hidx]
    rw [show f2d.getD (r * w + c) [] = f2d[r * w + c] from
      List.getD_eq_getElem f2d [] hidx]
    simp
  rw [hflat]
  by_cases hany : (f2d.getD (r * w + c) []).any (fun v => v.isNone) = true
  · rw [if_pos hany]
    exact ⟨iff_of_true rfl hany,
      fun h2 => absurd hany (by rw [h2]; exact Bool.false_ne_true)⟩
  · rw [if_neg hany]
    exact ⟨iff_of_false (Option.some_ne_none _) hany, fun _ => rfl⟩

/-- A concrete 1×2 feature stack: the first pixel fully defined, the second
pixel carrying an undefined (NaN) feature. -/
def stackWithNan : List FeatRow := [[some 5], [none]]

/-- A concrete constant classifier. -/
def constModel : FeatRow → ℤ := fun _ => 7

/-- Witness for C8: on `stackWithNan`, the pixel with the undefined feature
holds the NaN sentinel in the reconstructed raster. -/
theorem predict_nan_sentinel_witness :
    (stackWithNan.length = 1 * 2 ∧ 0 < 1 ∧ 1 < 2) ∧
    ((((reshape2 1 2 (predictRows constModel stackWithNan)).getD 0 []).getD 1
          none = none ↔
        (stackWithNan.getD (0 * 2 + 1) []).any (fun v => v.isNone) = true) ∧
      ((stackWithNan.getD (0 * 2 + 1) []).any (fun v => v.isNone) = false →
        ((reshape2 1 2 (predictRows constModel stackWithNan)).getD 0 []).getD 1
            none =
          some (constModel (stackWithNan.getD (0 * 2 + 1) [])))) :=
  ⟨⟨by decide, by decide, by decide⟩,
    predict_nan_sentinel constModel stackWithNan 1 2 0 1
      (by decide) (by decide) (by decide)⟩

/-! ## `Predictor._coregister_raster` (src/prediction/prediction.py lines
82-118)

Only north-up affine transforms occur; a transform is the pixel width `a`,
the west edge `c`, the (negative) pixel height `e` and the north edge `f` of
`rasterio.Affine(a, 0, c, 0, e, f)`. -/

/-- A north-up affine raster transform. -/
structure AffineNorth where
  a : ℤ
  c : ℤ
  e : ℤ
  f : ℤ
deriving DecidableEq

/-- The grid metadata of a raster: CRS, transform, and size. -/
structure RasterGrid where
  crs : CRSModel
  transform : AffineNorth
  width : ℕ
  height : ℕ
deriving DecidableEq

/-- A bounding box `(left, bottom, right, top)`. -/
structure BoundsBox where
  left : ℤ
  bottom : ℤ
  right : ℤ
  top : ℤ
deriving DecidableEq

/-- `dataset.bounds` of a north-up grid. -/
def gridBounds (g : RasterGrid) : BoundsBox :=
  ⟨g.transform.c, g.transform.f + g.transform.e * g.height,
    g.transform.c + g.transform.a * g.width, g.transform.f⟩

/-- Reprojection of one coordinate between the model CRSs: rescale by the
ratio of linear units. -/
def reprojCoord (src dst : CRSModel) (x : ℤ) : ℤ := x * src.scale / dst.scale

/-- Reprojection of a bounding box. -/
def transformBounds (src dst : CRSModel) (b : BoundsBox) : BoundsBox :=
  ⟨reprojCoord src dst b.left, reprojCoord src dst b.bottom,
    reprojCoord src dst b.right, reprojCoord src dst b.top⟩

/-- `rasterio.warp.calculate_default_transform(src_crs, dst_crs, width,
height, *bounds)`: the given bounds are interpreted as coordinates in
`src_crs`, warped into `dst_crs`, and a suggested `width × height` grid is
laid over the warped box (the suggested size is modelled as the given size;
GDAL may additionally alter it, which only moves the output further from the
reference grid). -/
def calcDefaultTransform (srcCrs dstCrs : CRSModel) (width height : ℕ)
    (b : BoundsBox) : AffineNorth × ℕ × ℕ :=
  let tb := transformBounds srcCrs dstCrs b
  (⟨(tb.right - tb.left) / width, tb.left, (tb.bottom - tb.top) / height, tb.top⟩,
    width, height)

/-- The grid metadata of the raster `_coregister_raster` writes to
`dest_path` (lines 88-104): the destination CRS is the reference's, but the
destination transform and size come from `calculate_default_transform(src.crs,
dst_crs, ref.width, ref.height, *ref.bounds)` — the reference's bounds are
passed where source-CRS coordinates are expected. -/
def coregisterGrid (src ref : RasterGrid) : RasterGrid :=
  let dstCrs := ref.crs
  let out := calcDefaultTransform src.crs dstCrs ref.width ref.height (gridBounds ref)
  ⟨dstCrs, out.1, out.2.1, out.2.2⟩

/-! ## Claim C1 -/

/-- The C1 failing input, source side: a raster in the geographic model CRS
(its own transform and size are irrelevant to the destination metadata). -/
def srcGeo : RasterGrid := ⟨epsg4326, ⟨1, 36, -1, 1⟩, 500, 400⟩

/-- The C1 failing input, reference side: a 10×10 metric grid with 30 m
pixels, west edge 100, north edge 200. -/
def refUtm : RasterGrid := ⟨⟨1, false⟩, ⟨30, 100, -30, 200⟩, 10, 10⟩

/-- C1 (code bug): `_coregister_raster` hands `ref.bounds` to
`calculate_default_transform` as if they were source-CRS coordinates, so when
the source CRS differs from the reference CRS the warped box — and with it
the output transform — does not match the reference grid: aligning `srcGeo`
to `refUtm` keeps the reference CRS but produces a transform different from
the reference's, although the claim requires CRS, transform, width and height
to all equal the reference's for every source. -/
theorem coregister_grid_not_reference :
    (coregisterGrid srcGeo refUtm).crs = refUtm.crs ∧
    (coregisterGrid srcGeo refUtm).transform ≠ refUtm.transform := by decide

/-! ## `ExtentAnalyzer.analyze_shoreline` (src/analysis/extent.py lines
96-143) -/

/-- A lake-extent layer as read back from `results/lake_{year}.shp`: its
geometry, its CRS, and the persisted `area_km2` attribute. -/
structure LakeLayer where
  geom : List Iv
  crs : CRSModel
  areaKm2 : ℚ

/-- The part of interval `i` outside interval `j`. -/
def ivSubtract (i j : Iv) : List Iv :=
  (if i.1 < min i.2 j.1 then [(i.1, min i.2 j.1)] else []) ++
  (if max i.1 j.2 < i.2 then [(max i.1 j.2, i.2)] else [])

/-- Interval-set difference, the model of
`gpd.overlay(a, b, how="difference")`. -/
def geomDiff (a b : List Iv) : List Iv :=
  (normIvs b).foldl (fun acc j => (acc.map (fun i => ivSubtract i j)).flatten)
    (normIvs a)

/-- Everything `analyze_shoreline` computes and reports (lines 111-122): the
two signed area changes from the stored `area_km2` attributes, and the growth
region 2025∖2007 with its area in km² after reprojection to EPSG:32636.  The
subsequent OpenStreetMap infrastructure download (lines 124-143) is an
excluded external collaborator and is not modelled. -/
structure ShorelineReport where
  areaChange2516 : ℚ
  areaChange1607 : ℚ
  growthAreaKm2 : ℚ

/-- `analyze_shoreline` on the three lake layers it reads. -/
def analyzeShoreline (lake2007 lake2016 lake2025 : LakeLayer) : ShorelineReport :=
  { areaChange2516 := lake2025.areaKm2 - lake2016.areaKm2
    areaChange1607 := lake2016.areaKm2 - lake2007.areaKm2
    growthAreaKm2 :=
      ((geomArea (toProjected lake2025.crs
        (geomDiff lake2025.geom lake2007.geom)) : ℤ) : ℚ) / 1000000 }

/-- Modelled from the spec (§4.2 `boundary_distance`), for comparison with
the code, which contains no such operation: for each boundary vertex of
extent `b`, the minimum distance to extent `a`'s boundary, averaged (the mean
of minima, not a Hausdorff maximum).  In the one-dimensional model a
boundary's vertex samples are the interval endpoints. -/
def boundaryDistanceSpec (a b : List Iv) : ℚ :=
  let averts := ((normIvs a).map (fun i => [i.1, i.2])).flatten
  let bverts := ((normIvs b).map (fun i => [i.1, i.2])).flatten
  let minima := bverts.map (fun v =>
    match averts with
    | [] => (0 : ℤ)
    | u :: rest => rest.foldl (fun m x => min m |v - x|) |v - u|)
  ((minima.sum : ℤ) : ℚ) / (bverts.length : ℚ)

/-! ## Claim C9 -/

/-- Concrete 2007 extent: `[0, 1000]`, 12 km² stored. -/
def lake07 : LakeLayer := ⟨[(0, 1000)], ⟨1, false⟩, 12⟩

/-- Concrete 2016 extent: `[0, 1400]`, 14 km² stored. -/
def lake16 : LakeLayer := ⟨[(0, 1400)], ⟨1, false⟩, 14⟩

/-- Concrete 2025 extent: `[0, 3000]`, 15 km² stored. -/
def lake25 : LakeLayer := ⟨[(0, 3000)], ⟨1, false⟩, 15⟩

/-- C9 counterexample: on these extents the analyzer reports exactly the
values 1 and 2 (area deltas) and 1/500 (growth area, km²), while the spec's
mean-of-minima boundary distance between the 2007 and 2025 extents is 1000 —
none of the analyzer's outputs realizes it: `analyze_shoreline` computes area
deltas, a growth region and OSM downloads, but no boundary-distance
operation. -/
theorem no_boundary_distance_reported :
    analyzeShoreline lake07 lake16 lake25 = ⟨1, 2, 1 / 500⟩ ∧
    boundaryDistanceSpec lake07.geom lake25.geom = 1000 ∧
    (analyzeShoreline lake07 lake16 lake25).areaChange2516 ≠
      boundaryDistanceSpec lake07.geom lake25.geom ∧
    (analyzeShoreline lake07 lake16 lake25).areaChange1607 ≠
      boundaryDistanceSpec lake07.geom lake25.geom ∧
    (analyzeShoreline lake07 lake16 lake25).growthAreaKm2 ≠
      boundaryDistanceSpec lake07.geom lake25.geom := by
  norm_num [analyzeShoreline, boundaryDistanceSpec, lake07, lake16, lake25,
    geomDiff, toProjected, geomArea, normIvs, sortIvs, insertIv, mergeFrom,
    ivSubtract, ivLen]

/-- C9 (amended): the shoreline analyzer reports the signed area deltas
2025−2016 and 2016−2007 taken from the stored `area_km2` attributes (so they
telescope to the 2025−2007 change) and the km² area of the reprojected
2025∖2007 difference region; no boundary-distance metric is among its
outputs. -/
theorem shoreline_reports_area_metrics (l07 l16 l25 : LakeLayer) :
    (analyzeShoreline l07 l16 l25).areaChange2516 = l25.areaKm2 - l16.areaKm2 ∧
    (analyzeShoreline l07 l16 l25).areaChange1607 = l16.areaKm2 - l07.areaKm2 ∧
    (analyzeShoreline l07 l16 l25).areaChange2516 +
        (analyzeShoreline l07 l16 l25).areaChange1607 =
      l25.areaKm2 - l07.areaKm2 ∧
    (analyzeShoreline l07 l16 l25).growthAreaKm2 =
      ((geomArea (toProjected l25.crs (geomDiff l25.geom l07.geom)) : ℤ) : ℚ) /
        1000000 := by
  refine ⟨rfl, rfl, ?_, rfl⟩
  show (l25.areaKm2 - l16.areaKm2) + (l16.areaKm2 - l07.areaKm2) =
    l25.areaKm2 - l07.areaKm2
  ring

end LakePipeline
